import Mathlib

/-!
Verification development for the `api-rate-limiter` gateway.

The definitions below are shallow embeddings of the middleware and service
functions of the repository (package `api-gateway`): the token-bucket and
fixed-window rate limiters, the client-IP resolver, the geo/policy gates,
the reputation gate, and the rate-limit configuration store.  JavaScript
numbers are modelled as exact rationals (`ℚ`); Redis hash fields read with
`HMGET` are modelled as `Option` values (`none` = field absent).
-/

/-- Models the JavaScript idiom `Number(s) || dflt` applied to a field read
from a Redis hash: an absent field gives `Number(null) = 0` which is falsy,
and a stored `"0"` gives `0` which is likewise falsy, so both fall back to
the default.  Any other stored numeric value is used as-is. -/
def jsNumOr (v : Option ℚ) (dflt : ℚ) : ℚ :=
  match v with
  | none => dflt
  | some x => if x = 0 then dflt else x

/-- State of one token-bucket hash in Redis: the `tokens` and
`lastRefillTime` fields (absent when the key is cold) and the remaining TTL
installed by `EXPIRE`. -/
structure BucketState where
  tokens : Option ℚ
  lastRefillTime : Option ℚ
  ttl : Option ℚ
deriving DecidableEq, Repr

/-- Decision of one token-bucket middleware invocation.  `allow` carries the
`X-RateLimit-Limit`, `-Remaining` and `-Reset` header values set before
`next()`; `reject` carries the HTTP status passed to `failure` and the
header values when the variant sets them (the factory sets limit/remaining/
reset on rejection, the older `rateLimiterMiddleware` sets none). -/
inductive TBDecision where
  | allow (limit : ℚ) (remaining reset : ℤ)
  | reject (status : ℕ) (limit : Option ℚ) (remaining : Option ℚ) (reset : Option ℤ)
deriving DecidableEq, Repr

/-- Embeds one invocation of the handler produced by
`tokenBucketMiddlewareFactory` (middleware/rate-limiter/factories, lines
204-255): read `tokens`/`lastRefillTime` with HMGET, apply
`Number(x) || fallback` to each field, refill by elapsed seconds times
`refillRate` capped at `capacity`, reject 429 when `newTokens < 1` (leaving
the stored state untouched), otherwise consume one token, write both fields
back with HMSET and set the TTL.  Returns the decision together with the
bucket state after the invocation. -/
def tokenBucketFactoryStep (capacity refillRate ttlSeconds : ℚ)
    (st : BucketState) (now : ℚ) : TBDecision × BucketState :=
  let tokens := jsNumOr st.tokens capacity
  let lastRefill := jsNumOr st.lastRefillTime now
  let elapsedSeconds := (now - lastRefill) / 1000
  let tokensToAdd := elapsedSeconds * refillRate
  let newTokens := min capacity (tokens + tokensToAdd)
  if newTokens < 1 then
    let secondsUntilOne : ℤ := ⌈(1 - newTokens) / refillRate⌉
    (TBDecision.reject 429 (some capacity) (some 0)
      (some ⌊now / 1000 + (secondsUntilOne : ℚ)⌋), st)
  else
    let newTokenCount := newTokens - 1
    (TBDecision.allow capacity ⌊newTokenCount⌋
      ⌈now / 1000 + (capacity - newTokens + 1) / refillRate⌉,
     { tokens := some newTokenCount, lastRefillTime := some now,
       ttl := some ttlSeconds })

/-- Embeds one invocation of the older `rateLimiterMiddleware`
(middleware/rate-limiter.middleware.ts, lines 45-78): the same read,
refill and consume arithmetic as the factory, but on exhaustion it calls
`failure(res, 500, TOO_MANY_REQUESTS)` without setting any rate-limit
headers, and the TTL is fixed at 86400 seconds. -/
def rateLimiterMiddlewareStep (capacity refillRate : ℚ)
    (st : BucketState) (now : ℚ) : TBDecision × BucketState :=
  let tokens := jsNumOr st.tokens capacity
  let lastRefillTime := jsNumOr st.lastRefillTime now
  let timeElapsed := (now - lastRefillTime) / 1000
  let tokensToAdd := timeElapsed * refillRate
  let newTokens := min capacity (tokens + tokensToAdd)
  if newTokens < 1 then
    (TBDecision.reject 500 none none none, st)
  else
    (TBDecision.allow capacity ⌊newTokens - 1⌋
      ⌈now / 1000 + (capacity - newTokens + 1) / refillRate⌉,
     { tokens := some (newTokens - 1), lastRefillTime := some now,
       ttl := some 86400 })

/-- Two concurrent invocations of the factory handler on the same bucket
key, interleaved so that both `HMGET`s execute before either `HMSET`.  The
source awaits `redis.hmget` and `redis.hmset` as two separate commands with
no `MULTI`/`WATCH`/Lua script, so this interleaving is allowed by the store:
each request computes its decision from the initial state, then the writes
land in order (first request A, then request B; a rejected request writes
nothing). -/
def interleavedPair (capacity refillRate ttlSeconds : ℚ)
    (st0 : BucketState) (now : ℚ) : TBDecision × TBDecision × BucketState :=
  let a := tokenBucketFactoryStep capacity refillRate ttlSeconds st0 now
  let b := tokenBucketFactoryStep capacity refillRate ttlSeconds st0 now
  (a.1, b.1,
    match b.1 with
    | TBDecision.allow _ _ _ => b.2
    | TBDecision.reject _ _ _ _ => a.2)

/-- C1: the spec scenario `capacity=2`, `refillRate=1/s`, cold bucket, three
back-to-back requests (same millisecond) expects `pass, pass, 429` with
`Remaining: 1, 0` on the first two.  The code delivers `pass, pass, pass`:
the second admit stores `tokens = "0"`, and the third read evaluates
`Number("0") || capacity` to `capacity` because `0` is falsy, so the third
request sees a full bucket and is admitted with `Remaining: 1` instead of
being rejected 429.  (A fourth request 1 s later also passes, as the claim
says.) -/
theorem tokenBucket_exhaustion_scenario_third_request_admitted :
    tokenBucketFactoryStep 2 1 3600 ⟨none, none, none⟩ 1000000 =
      (TBDecision.allow 2 1 1001, ⟨some 1, some 1000000, some 3600⟩) ∧
    tokenBucketFactoryStep 2 1 3600 ⟨some 1, some 1000000, some 3600⟩ 1000000 =
      (TBDecision.allow 2 0 1002, ⟨some 0, some 1000000, some 3600⟩) ∧
    tokenBucketFactoryStep 2 1 3600 ⟨some 0, some 1000000, some 3600⟩ 1000000 =
      (TBDecision.allow 2 1 1001, ⟨some 1, some 1000000, some 3600⟩) ∧
    (tokenBucketFactoryStep 2 1 3600 ⟨some 1, some 1000000, some 3600⟩
        1001000).1 =
      TBDecision.allow 2 1 1002 := by
  refine ⟨?_, ?_, ?_, ?_⟩ <;>
    norm_num [tokenBucketFactoryStep, jsNumOr]

/-- C2: a stored balance of exactly `0` is not fed into the refill formula.
With `capacity=2`, `refillRate=1`, stored state `tokens=0`,
`lastRefillTime=now`, the claim's formula gives
`newTokens = min(2, 0 + 0·1) = 0 < 1`, i.e. a 429; the code's
`Number(tokensStr) || capacity` turns the stored `0` into `2`, so the step
admits the request and writes back `tokens = 1`. -/
theorem tokenBucket_stored_zero_read_as_capacity :
    tokenBucketFactoryStep 2 1 3600 ⟨some 0, some 1000000, some 3600⟩ 1000000 =
      (TBDecision.allow 2 1 1001, ⟨some 1, some 1000000, some 3600⟩) ∧
    min (2 : ℚ) (0 + ((1000000 - 1000000) / 1000) * 1) < 1 := by
  constructor
  · norm_num [tokenBucketFactoryStep, jsNumOr]
  · norm_num

/-- C3: on exhaustion (`newTokens < 1`) the factory handler rejects with
status 429 and leaves the stored bucket state unchanged, but the
`rateLimiterMiddleware` variant cited by the claim rejects the same state
with status 500 (it calls `failure(res, 500, TOO_MANY_REQUESTS)`), not 429.
Both variants persist nothing on rejection.  Here `tokens=1/2` is stored,
`lastRefillTime=now`, `capacity=2`, `refillRate=1/10`:
`newTokens = 1/2 < 1`. -/
theorem tokenBucket_reject_status_divergence :
    tokenBucketFactoryStep 2 (1/10) 3600 ⟨some (1/2), some 1000000, some 3600⟩
        1000000 =
      (TBDecision.reject 429 (some 2) (some 0) (some 1005),
       ⟨some (1/2), some 1000000, some 3600⟩) ∧
    rateLimiterMiddlewareStep 2 (1/10) ⟨some (1/2), some 1000000, some 3600⟩
        1000000 =
      (TBDecision.reject 500 none none none,
       ⟨some (1/2), some 1000000, some 3600⟩) := by
  constructor
  · norm_num [tokenBucketFactoryStep, jsNumOr]
  · norm_num [rateLimiterMiddlewareStep, jsNumOr]

/-- C4: the token-bucket step is not serialized.  With one token available
(`tokens=1`, `lastRefillTime=now`) and zero elapsed time, two interleaved
invocations both observe the stored pair `(1, now)`, both are admitted, and
both compute the identical write `(0, now)` — exactly the two-consumes
situation the claim says a single atomic script/transaction rules out; two
requests succeed where only `floor(1 + 0·rate) = 1` token was available. -/
theorem tokenBucket_interleaved_reads_both_admit :
    interleavedPair 2 1 3600 ⟨some 1, some 1000000, some 3600⟩ 1000000 =
      (TBDecision.allow 2 0 1002, TBDecision.allow 2 0 1002,
       ⟨some 0, some 1000000, some 3600⟩) := by
  norm_num [interleavedPair, tokenBucketFactoryStep, jsNumOr]

/-! ## Client-IP resolution (utils/get-client-ip.ts)

String manipulation is modelled on character lists so that every function
is structurally recursive.  The external `ipaddr.js` library is modelled
for dotted-decimal IPv4 literals: `parse` succeeds exactly on four
dot-separated decimal octets `0..255` (without leading zeros), and `range`
classifies per the library's IPv4 special-range table; every other string
(including IPv6 literals and junk) is a parse failure here, which is what
the middleware's inputs in the theorems below exercise. -/

/-- Splits a character list on a separator, keeping empty segments, exactly
like the JavaScript `String.prototype.split` with a one-character
separator. -/
def splitOnChar (sep : Char) : List Char → List (List Char)
  | [] => [[]]
  | c :: cs =>
    let rest := splitOnChar sep cs
    if c = sep then [] :: rest
    else
      match rest with
      | seg :: segs => (c :: seg) :: segs
      | [] => [[c]]

/-- Models `s.split(',')`. -/
def splitComma (s : String) : List String :=
  (splitOnChar ',' s.data).map (fun l => ⟨l⟩)

/-- Whitespace characters removed by `String.prototype.trim` (the common
ASCII ones; the middlewares only ever see spaces). -/
def isJsSpace (c : Char) : Bool :=
  c = ' ' ∨ c = '\t' ∨ c = '\n' ∨ c = '\r'

/-- Models `s.trim()`. -/
def jsTrim (s : String) : String :=
  ⟨((s.data.dropWhile isJsSpace).reverse.dropWhile isJsSpace).reverse⟩

/-- Value of a decimal digit character. -/
def digitVal (c : Char) : Option ℕ :=
  if '0' ≤ c ∧ c ≤ '9' then some (c.toNat - '0'.toNat) else none

/-- Parses one IPv4 octet: one to three decimal digits, no leading zero
(leading-zero octal forms are outside this model). -/
def parseOctet (l : List Char) : Option ℕ :=
  match l with
  | [] => none
  | c :: cs =>
    if l.length > 3 then none
    else if c = '0' ∧ cs ≠ [] then none
    else
      l.foldl
        (fun acc ch =>
          match acc, digitVal ch with
          | some n, some d => some (n * 10 + d)
          | _, _ => none)
        (some 0)

/-- Models `ipaddr.parse` on dotted-decimal IPv4 literals. -/
def parseIPv4 (s : String) : Option (ℕ × ℕ × ℕ × ℕ) :=
  match (splitOnChar '.' s.data).map parseOctet with
  | [some a, some b, some c, some d] =>
    if a ≤ 255 ∧ b ≤ 255 ∧ c ≤ 255 ∧ d ≤ 255 then some (a, b, c, d) else none
  | _ => none

/-- Range labels returned by `ipaddr.js` `addr.range()` for IPv4. -/
inductive IpRange where
  | unspecified
  | broadcast
  | multicast
  | linkLocal
  | loopback
  | carrierGradeNat
  | priv
  | reserved
  | unicast
deriving DecidableEq, Repr

/-- The IPv4 special-range table of `ipaddr.js`. -/
def ipv4Range : ℕ × ℕ × ℕ × ℕ → IpRange
  | (a, b, c, d) =>
    if a = 0 then IpRange.unspecified
    else if a = 255 ∧ b = 255 ∧ c = 255 ∧ d = 255 then IpRange.broadcast
    else if 224 ≤ a ∧ a ≤ 239 then IpRange.multicast
    else if a = 169 ∧ b = 254 then IpRange.linkLocal
    else if a = 127 then IpRange.loopback
    else if a = 100 ∧ 64 ≤ b ∧ b ≤ 127 then IpRange.carrierGradeNat
    else if a = 10 ∨ (a = 172 ∧ 16 ≤ b ∧ b ≤ 31) ∨ (a = 192 ∧ b = 168) then
      IpRange.priv
    else if (a = 192 ∧ b = 0 ∧ c = 0) ∨ (a = 192 ∧ b = 0 ∧ c = 2) ∨
        (a = 192 ∧ b = 88 ∧ c = 99) ∨ (a = 198 ∧ (b = 18 ∨ b = 19)) ∨
        (a = 198 ∧ b = 51 ∧ c = 100) ∨ (a = 203 ∧ b = 0 ∧ c = 113) ∨
        240 ≤ a then
      IpRange.reserved
    else IpRange.unicast

/-- Embeds `isPrivate` of utils/get-client-ip.ts: parse the address, get its
range, and test membership in `['private', 'loopback', 'linkLocal',
'uniqueLocal', 'reserved']` (`uniqueLocal` only arises for IPv6 and so never
here).  The source's `catch` clause returns `false` on a parse failure, so
an unparseable candidate is classified as NOT private. -/
def isPrivate (ip : String) : Bool :=
  match parseIPv4 ip with
  | none => false
  | some q =>
    decide (ipv4Range q ∈
      [IpRange.priv, IpRange.loopback, IpRange.linkLocal, IpRange.reserved])

/-- Models `remote.replace(/^::ffff:/, '')`. -/
def stripV4Mapped (s : String) : String :=
  if s.data.take 7 = [':', ':', 'f', 'f', 'f', 'f', ':'] then ⟨s.data.drop 7⟩
  else s

/-- The `x-forwarded-for` step of `getClientIp`: split on commas, trim each
element, return the first element `ip` with `!isPrivate(ip)`, and fall back
to the first element when every element is private. -/
def xffResolve (xff : String) : String :=
  let list := (splitComma xff).map jsTrim
  match list.find? (fun ip => ! isPrivate ip) with
  | some ip => ip
  | none => list.headD ""

/-- The forwarded-header material of one request, as read by
`getClientIp`. -/
structure IpRequest where
  remoteAddress : Option String
  cfConnectingIp : Option String
  xRealIp : Option String
  xForwardedFor : Option String

/-- Embeds `getClientIp` of utils/get-client-ip.ts.  `isFromCloudflare` (a
scan of the `CLOUDFLARE_IP_RANGES` constant) is passed as a parameter.
Step order as in the source: normalized socket address; `cf-connecting-ip`
when the socket is a Cloudflare address and the header is nonempty and not
private; then `x-real-ip` under the same test; then `x-forwarded-for` via
`xffResolve`; else the socket address.  The function is total: the
resolver never throws. -/
def getClientIp (isFromCloudflare : String → Bool) (req : IpRequest) :
    Option String :=
  let remote : Option String :=
    match req.remoteAddress with
    | none => none
    | some s => let r := stripV4Mapped s; if r = "" then none else some r
  let cfResult : Option String :=
    match remote with
    | some r =>
      if isFromCloudflare r then
        match req.cfConnectingIp with
        | some cf => if cf ≠ "" ∧ isPrivate cf = false then some cf else none
        | none => none
      else none
    | none => none
  match cfResult with
  | some ip => some ip
  | none =>
    let xrResult : Option String :=
      match req.xRealIp with
      | some xr => if xr ≠ "" ∧ isPrivate xr = false then some xr else none
      | none => none
    match xrResult with
    | some ip => some ip
    | none =>
      match req.xForwardedFor with
      | some xff => if xff ≠ "" then some (xffResolve xff) else remote
      | none => remote

example : isPrivate "10.0.0.1" = true := by decide
example : isPrivate "not-an-ip" = false := by decide
example : xffResolve "not-an-ip, 8.8.8.8" = "not-an-ip" := by decide

/-- C7: the resolver does split `x-forwarded-for` on commas and trim, but an
element that fails address parsing is NOT skipped: `isPrivate` returns
`false` from its `catch`, so `!isPrivate(el)` holds and the unparseable
element is returned as the client IP.  With no Cloudflare match and no
`x-real-ip`, the request below resolves to `"not-an-ip"` even though the
genuinely public `"8.8.8.8"` follows it in the list. -/
theorem getClientIp_returns_unparseable_xff_element :
    getClientIp (fun _ => false)
        ⟨some "93.184.216.34", none, none, some "not-an-ip, 8.8.8.8"⟩ =
      some "not-an-ip" ∧
    parseIPv4 "not-an-ip" = none ∧
    isPrivate "not-an-ip" = false ∧
    isPrivate "8.8.8.8" = false := by
  refine ⟨?_, by decide, by decide, by decide⟩
  decide

/-! ## Policy gates (geoPolicy.middleware.ts and geo-block.middleware.ts) -/

/-- The four policy lists held by `SecurityPolicyService` (in memory) and,
for the Redis-direct variant, by the `geo:*` Redis sets. -/
structure PolicyLists where
  ipWhitelist : List String
  ipBlacklist : List String
  cidrBlacklist : List String
  countryBlocklist : List String

/-- Models `s.toUpperCase()` (ASCII, which is all country codes use). -/
def jsToUpper (s : String) : String :=
  ⟨s.data.map Char.toUpper⟩

/-- Embeds `SecurityPolicyService.isIpWhitelisted`. -/
def isIpWhitelisted (lists : PolicyLists) (ip : String) : Bool :=
  lists.ipWhitelist.contains ip

/-- Embeds `SecurityPolicyService.isIpBlacklisted`: exact membership in the
IP denylist, else a scan of the CIDR denylist via the external
`ip-range-check` library, passed here as the parameter `cidrMatch`. -/
def isIpBlacklisted (cidrMatch : String → List String → Bool)
    (lists : PolicyLists) (ip : String) : Bool :=
  lists.ipBlacklist.contains ip || cidrMatch ip lists.cidrBlacklist

/-- Embeds `SecurityPolicyService.isCountryBlocked` (uppercases the query). -/
def isCountryBlocked (lists : PolicyLists) (countryCode : String) : Bool :=
  lists.countryBlocklist.contains (jsToUpper countryCode)

/-- Outcome of a policy-gate middleware: call `next()`, reject 400 (missing
IP), or reject 403 (blocked). -/
inductive GateDecision where
  | pass
  | reject400
  | reject403
deriving DecidableEq, Repr

/-- Embeds `geoPolicyMiddleware` (geoPolicy.middleware.ts, the snapshot
variant wired into the app pipeline): missing/empty `req.clientIp` rejects
400; then allowlist pass, denylist (exact or CIDR) 403, blocked country
403, else pass.  `lookupCountry` models `GeoService.lookup` (country of the
address, `none` when the lookup has no data).  There is no private-address
bypass in this middleware. -/
def geoPolicyMiddleware (cidrMatch : String → List String → Bool)
    (lists : PolicyLists) (lookupCountry : String → Option String)
    (clientIp : Option String) : GateDecision :=
  match clientIp with
  | none => GateDecision.reject400
  | some ip =>
    if ip = "" then GateDecision.reject400
    else if isIpWhitelisted lists ip then GateDecision.pass
    else if isIpBlacklisted cidrMatch lists ip then GateDecision.reject403
    else
      match lookupCountry ip with
      | some country =>
        if isCountryBlocked lists country then GateDecision.reject403
        else GateDecision.pass
      | none => GateDecision.pass

/-- One adapter verdict as consulted by the reputation logic; of the
adapter payload only the optional `score` is read by any decision. -/
structure ReputationResult where
  score : Option ℚ
deriving DecidableEq, Repr

/-- Models the spread `Math.max(...xs)`: `none` stands for the empty-spread
result `-Infinity`. -/
def jsMathMax : List ℚ → Option ℚ
  | [] => none
  | x :: xs => some (xs.foldl max x)

/-- Embeds `geoBlockMiddleware` (geo-block.middleware.ts, the Redis-direct
variant): `/healthz` bypass; missing/empty IP rejects 400; private client
IPs (the external `ip` package's `isPrivate`, parameter `isPriv`) pass
before any list is consulted; then whitelist pass, blacklist 403, country
403; finally the reputation tail (cached verdict or fresh adapter results,
blocking when `Math.max(...scores)` meets the threshold). -/
def geoBlockMiddleware (isPriv : String → Bool) (lists : PolicyLists)
    (lookupCountry : String → Option String)
    (repCache : Option (List ReputationResult))
    (adapterResults : List ReputationResult) (threshold : ℚ)
    (path : String) (clientIp : Option String) : GateDecision :=
  if path = "/healthz" then GateDecision.pass
  else
    match clientIp with
    | none => GateDecision.reject400
    | some ip =>
      if ip = "" then GateDecision.reject400
      else if isPriv ip then GateDecision.pass
      else if lists.ipWhitelist.contains ip then GateDecision.pass
      else if lists.ipBlacklist.contains ip then GateDecision.reject403
      else
        let countryBlocked :=
          match lookupCountry ip with
          | some country => lists.countryBlocklist.contains country
          | none => false
        if countryBlocked then GateDecision.reject403
        else
          let reputations :=
            match repCache with
            | some cached => cached
            | none => adapterResults
          match jsMathMax (reputations.map (fun r => r.score.getD 0)) with
          | some m =>
            if m ≥ threshold then GateDecision.reject403 else GateDecision.pass
          | none => GateDecision.pass

/-- C6 counterexample: the pipeline's policy gate, `geoPolicyMiddleware`,
has no private-address bypass: the private address `10.0.0.1`, present in
the IP denylist, is rejected 403 instead of being passed as internal
traffic. -/
theorem geoPolicy_rejects_denylisted_private_ip :
    geoPolicyMiddleware (fun _ _ => false)
        ⟨[], ["10.0.0.1"], [], []⟩ (fun _ => none) (some "10.0.0.1") =
      GateDecision.reject403 ∧
    isPrivate "10.0.0.1" = true := by
  constructor
  · decide
  · decide

/-- C6 amended: only the Redis-direct `geoBlockMiddleware` variant passes a
private client IP before consulting any list — for every list content
(including a denylist containing the IP), country lookup, reputation state
and threshold, a private client IP yields `pass`. -/
theorem geoBlock_passes_private_ip_before_lists
    (isPriv : String → Bool) (lists : PolicyLists)
    (lookupCountry : String → Option String)
    (repCache : Option (List ReputationResult))
    (adapterResults : List ReputationResult) (threshold : ℚ)
    (path ip : String) (hpriv : isPriv ip = true) (hne : ip ≠ "") :
    geoBlockMiddleware isPriv lists lookupCountry repCache adapterResults
        threshold path (some ip) = GateDecision.pass := by
  unfold geoBlockMiddleware
  by_cases hp : path = "/healthz" <;> simp [hp, hne, hpriv]

/-- C6 amended, witness: the denylisted private address `10.0.0.1` passes
the Redis-direct gate (using the repository's own address classifier for
the `ip` package's private test). -/
theorem geoBlock_passes_private_ip_before_lists_witness :
    geoBlockMiddleware isPrivate ⟨[], ["10.0.0.1"], [], []⟩ (fun _ => none)
        none [] 0 "/api" (some "10.0.0.1") = GateDecision.pass :=
  geoBlock_passes_private_ip_before_lists isPrivate
    ⟨[], ["10.0.0.1"], [], []⟩ (fun _ => none) none [] 0 "/api" "10.0.0.1"
    (by decide) (by decide)

/-! ## Reputation gate (reputation.middleware.ts, ReputationService) -/

/-- Embeds `ReputationService.maxScore`:
`Math.max(0, ...results.map((r) => r.score ?? 0))` — a left fold of `max`
over the scores starting from the explicit `0` argument, with a missing
`score` contributing `0`. -/
def ReputationService.maxScore (results : List ReputationResult) : ℚ :=
  results.foldl (fun m r => max m (r.score.getD 0)) 0

/-- Decision of the reputation middleware: reject 403 or call `next()`. -/
inductive RepDecision where
  | blocked403
  | pass
deriving DecidableEq, Repr

/-- Observable outcome of one reputation-middleware invocation: the
decision, whether the adapter fan-out (`reputationService.check`) ran, and
the verdict written to the cache if any. -/
structure RepOutcome where
  decision : RepDecision
  adapterCalled : Bool
  cacheWrite : Option (List ReputationResult)
deriving DecidableEq, Repr

/-- Embeds `reputationMiddleware` (reputation.middleware.ts): a missing or
empty `req.clientIp` passes; a cache hit decides from the cached verdict
alone (no lock, no adapter call, no cache write); on a miss the
single-flight lock gates one adapter fan-out whose results are cached and
evaluated, while a losing contender passes without blocking.  `cache` is
the parsed value at `geo:reputation:<ip>` (`none` = miss), `lockAcquired`
the result of `SET lock NX PX`, and `adapterResults` what
`reputationService.check(ip)` would return. -/
def reputationMiddleware (threshold : ℚ) (ip : Option String)
    (cache : Option (List ReputationResult)) (lockAcquired : Bool)
    (adapterResults : List ReputationResult) : RepOutcome :=
  match ip with
  | none => ⟨RepDecision.pass, false, none⟩
  | some ipStr =>
    if ipStr = "" then ⟨RepDecision.pass, false, none⟩
    else
      match cache with
      | some results =>
        ⟨if ReputationService.maxScore results ≥ threshold then
            RepDecision.blocked403
          else RepDecision.pass, false, none⟩
      | none =>
        if lockAcquired then
          ⟨if ReputationService.maxScore adapterResults ≥ threshold then
              RepDecision.blocked403
            else RepDecision.pass, true, some adapterResults⟩
        else ⟨RepDecision.pass, false, none⟩

/-- C8: on a cache hit the request is rejected 403 exactly when the maximum
score of the cached verdict (missing scores counting 0, empty verdict
scoring 0) reaches the threshold, and otherwise it passes; either way no
adapter is contacted and nothing is written. -/
theorem reputation_cache_hit_blocks_iff_max_ge_threshold
    (threshold : ℚ) (results : List ReputationResult) (lockAcquired : Bool)
    (adapterResults : List ReputationResult) (ip : String) (hne : ip ≠ "") :
    let out := reputationMiddleware threshold (some ip) (some results)
      lockAcquired adapterResults
    (out.decision = RepDecision.blocked403 ↔
      ReputationService.maxScore results ≥ threshold) ∧
    out.adapterCalled = false ∧
    out.cacheWrite = none ∧
    ReputationService.maxScore [] = 0 ∧
    (∀ rest : List ReputationResult,
      ReputationService.maxScore (⟨none⟩ :: rest) =
        ReputationService.maxScore (⟨some 0⟩ :: rest)) := by
  refine ⟨?_, ?_, ?_, rfl, fun rest => rfl⟩ <;>
    by_cases h : ReputationService.maxScore results ≥ threshold <;>
      simp [reputationMiddleware, hne, h]

/-- C8 witness: cached verdict `[{score: 80}]` against threshold 50. -/
theorem reputation_cache_hit_blocks_witness :
    ("8.8.4.4" : String) ≠ "" ∧
    (let out := reputationMiddleware 50 (some "8.8.4.4")
        (some [(⟨some 80⟩ : ReputationResult)]) false []
     (out.decision = RepDecision.blocked403 ↔
       ReputationService.maxScore [(⟨some 80⟩ : ReputationResult)] ≥ 50) ∧
     out.adapterCalled = false ∧
     out.cacheWrite = none ∧
     ReputationService.maxScore [] = 0 ∧
     (∀ rest : List ReputationResult,
       ReputationService.maxScore (⟨none⟩ :: rest) =
         ReputationService.maxScore (⟨some 0⟩ :: rest))) :=
  ⟨by decide,
   reputation_cache_hit_blocks_iff_max_ge_threshold 50
     [(⟨some 80⟩ : ReputationResult)] false [] "8.8.4.4" (by decide)⟩

/-! ## Fixed-window limiter (fixedWindowMiddlewareFactory) -/

/-- State of one fixed-window counter key: the counter value (absent before
the first hit; `INCR` treats absent as 0) and its TTL. -/
structure WindowState where
  count : Option ℤ
  ttl : Option ℤ
deriving DecidableEq, Repr

/-- Observable outcome of one fixed-window invocation: the rejection status
(`some 429`, or `none` for `next()`) and the limit/remaining header values
set on a passing decision. -/
structure FWResult where
  status : Option ℕ
  limitHeader : Option ℤ
  remainingHeader : Option ℤ
deriving DecidableEq, Repr

/-- Embeds one invocation of the handler produced by
`fixedWindowMiddlewareFactory` (middleware/rate-limiter/factories, lines
127-152): `requests = INCR key`; when `requests === 1` set the key's TTL to
`windowsSeconds`; when `requests > limit` reject 429 (no headers set);
otherwise set the limit header and `Remaining = max(0, limit - requests)`
and pass. -/
def fixedWindowStep (limit windowsSeconds : ℤ) (st : WindowState) :
    FWResult × WindowState :=
  let requests := st.count.getD 0 + 1
  let st1 : WindowState :=
    { count := some requests
      ttl := if requests = 1 then some windowsSeconds else st.ttl }
  if requests > limit then
    ({ status := some 429, limitHeader := none, remainingHeader := none }, st1)
  else
    ({ status := none, limitHeader := some limit,
       remainingHeader := some (max 0 (limit - requests)) }, st1)

/-- C5: for every fixed-window step the counter is incremented, the TTL is
installed exactly on the first hit of the window (`n = 1`), the request is
rejected 429 exactly when the incremented value exceeds the limit, and a
passing decision exposes `Remaining = max(0, limit - n)`. -/
theorem fixedWindow_step_spec (limit windowsSeconds : ℤ) (st : WindowState) :
    let n := st.count.getD 0 + 1
    let r := fixedWindowStep limit windowsSeconds st
    r.2.count = some n ∧
    r.2.ttl = (if n = 1 then some windowsSeconds else st.ttl) ∧
    (r.1.status = some 429 ↔ n > limit) ∧
    r.1.remainingHeader =
      (if n > limit then none else some (max 0 (limit - n))) := by
  by_cases h : st.count.getD 0 + 1 > limit <;>
    simp [fixedWindowStep, h]

/-! ## Rate-limit configuration store (RateLimitService, `rl:config`) -/

/-- A value stored in one field of the `rl:config` hash, modelled by its
`JSON.parse` outcome: either unparseable bytes, or a JSON object whose
`capacity` / `refillRate` members may each be present or absent. -/
inductive StoredVal where
  | corrupt
  | obj (capacity refillRate : Option ℚ)
deriving DecidableEq, Repr

/-- Result of `RateLimitService.getConfig`: the `capacity` and `refillRate`
members of the returned object (`none` = the member is absent/undefined)
and the `isDefault` marker. -/
structure ConfigResult where
  capacity : Option ℚ
  refillRate : Option ℚ
  isDefault : Bool
deriving DecidableEq, Repr

/-- Embeds `RateLimitService.getConfig` (services/rate-limit.service.ts):
`HGET rl:config <apiKey>`; an absent field returns the defaults with
`isDefault: true`; a stored value that fails `JSON.parse` is caught and
likewise returns the defaults with `isDefault: true`; a value that parses
is spread into the result as-is (no per-member merge with the defaults)
with `isDefault: false`. -/
def RateLimitService.getConfig (stored : Option StoredVal)
    (defaultCapacity defaultRefillRate : ℚ) : ConfigResult :=
  match stored with
  | none => ⟨some defaultCapacity, some defaultRefillRate, true⟩
  | some StoredVal.corrupt =>
    ⟨some defaultCapacity, some defaultRefillRate, true⟩
  | some (StoredVal.obj c r) => ⟨c, r, false⟩

/-- One element of the array built by `RateLimitService.listConfigs`. -/
structure ConfigEntry where
  apiKey : String
  capacity : Option ℚ
  refillRate : Option ℚ
deriving DecidableEq, Repr

/-- Embeds `RateLimitService.listConfigs` (services/rate-limit.service.ts):
`HGETALL rl:config` then `Object.entries(all).map(([k, v]) => ({apiKey: k,
...JSON.parse(v)}))`.  The `JSON.parse` is not guarded, so a corrupt field
makes the whole call throw — modelled as `none` for the enumeration. -/
def RateLimitService.listConfigs :
    List (String × StoredVal) → Option (List ConfigEntry)
  | [] => some []
  | kv :: rest =>
    match kv.2 with
    | StoredVal.corrupt => none
    | StoredVal.obj c r =>
      match RateLimitService.listConfigs rest with
      | none => none
      | some entries => some (⟨kv.1, c, r⟩ :: entries)

/-- Models the JavaScript comparison `x <= 0` when `x` may be `undefined`:
comparing `undefined` yields `NaN <= 0`, which is `false`. -/
def jsLeZero (v : Option ℚ) : Bool :=
  match v with
  | none => false
  | some x => decide (x ≤ 0)

/-- Embeds the misconfiguration guard of `tokenBucketMiddlewareFactory`
(lines 193-202): `capacity <= 0 || refillRate <= 0` on the values resolved
by `getCapacity` / `getRefillRate` (which, for the API-key stage, are the
`capacity` / `refillRate` members returned by
`RateLimitService.getConfig`). -/
def misconfigGuard (capacity refillRate : Option ℚ) : Bool :=
  jsLeZero capacity || jsLeZero refillRate

/-- C9 counterexample: an enumeration over a hash holding one good and one
corrupt field does not skip the corrupt field — the whole call fails. -/
theorem listConfigs_fails_on_corrupt_field :
    RateLimitService.listConfigs
        [("good", StoredVal.obj (some 5) (some 1)), ("bad", StoredVal.corrupt)] =
      none := by
  rfl

/-- C9 amended: `listConfigs` fails (the unguarded `JSON.parse` throws)
exactly when some stored field is corrupt; with no corrupt field the
enumeration succeeds. -/
theorem listConfigs_fails_iff_some_field_corrupt
    (hash : List (String × StoredVal)) :
    RateLimitService.listConfigs hash = none ↔
      ∃ kv ∈ hash, kv.2 = StoredVal.corrupt := by
  induction hash with
  | nil => simp [RateLimitService.listConfigs]
  | cons kv rest ih =>
    obtain ⟨k, v⟩ := kv
    cases v with
    | corrupt => simp [RateLimitService.listConfigs]
    | obj c r =>
      simp only [RateLimitService.listConfigs]
      rcases h : RateLimitService.listConfigs rest with _ | entries
      · constructor
        · intro _
          obtain ⟨⟨a, b⟩, hmem, hb⟩ := ih.mp h
          have hb' : b = StoredVal.corrupt := hb
          subst hb'
          exact ⟨(a, StoredVal.corrupt), List.mem_cons_of_mem _ hmem, rfl⟩
        · intro _
          rfl
      · constructor
        · intro hcontra
          exact Option.noConfusion hcontra
        · rintro ⟨⟨a, b⟩, hmem, hb⟩
          have hb' : b = StoredVal.corrupt := hb
          subst hb'
          rcases List.mem_cons.mp hmem with heq | hrest
          · have hsnd : StoredVal.corrupt = StoredVal.obj c r :=
              congrArg Prod.snd heq
            exact StoredVal.noConfusion hsnd
          · have hnone : RateLimitService.listConfigs rest = none :=
              ih.mpr ⟨(a, StoredVal.corrupt), hrest, rfl⟩
            rw [h] at hnone
            exact Option.noConfusion hnone

/-- C10: `getConfig` merges the defaults only when the stored field is
absent or unparseable (marked `isDefault: true`); a parsed object is
returned as-is with `isDefault: false`, so a member the stored object omits
stays absent rather than defaulting — and the factory's misconfiguration
guard does not fire on an absent member (`undefined <= 0` is `false`). -/
theorem getConfig_no_merge_for_parsed_values :
    (∀ dc dr : ℚ, RateLimitService.getConfig none dc dr =
      ⟨some dc, some dr, true⟩) ∧
    (∀ dc dr : ℚ, RateLimitService.getConfig (some StoredVal.corrupt) dc dr =
      ⟨some dc, some dr, true⟩) ∧
    (∀ (c r : Option ℚ) (dc dr : ℚ),
      RateLimitService.getConfig (some (StoredVal.obj c r)) dc dr =
        ⟨c, r, false⟩) ∧
    (∀ r : ℚ, misconfigGuard none (some r) = decide (r ≤ 0)) ∧
    misconfigGuard none none = false := by
  exact ⟨fun _ _ => rfl, fun _ _ => rfl, fun _ _ _ _ => rfl,
    fun _ => rfl, rfl⟩
